import Mathlib

/-!
Verification of the voting ledger and checkout-reconciliation core of the
Karman car-show application (src/app.py, src/database.py).

The embedding models:
  * Python `str(n)` / `int(s)` on integers (`pyIntStr` / `pyInt?`),
  * the sqlite tables `shows`, `show_cars`, `votes` as lists of records,
  * the Stripe checkout gateway as a list of sessions plus a fresh-id counter,
  * `record_paid_votes`, `reset_votes_for_show`, `leaderboard_by_category`,
    `leaderboard_overall` from database.py,
  * `create_checkout_session` and `vote_success` from app.py,
  * a small-step system relation tying them together for reachability
    invariants.
-/

/-! ## Python integer/string primitives

`pyIntStr` models Python `str` on an `int`: the decimal digits, with a
leading `-` for negative values.  `pyInt?` models Python `int` on a string:
an optional sign followed by a nonempty run of decimal digits yields the
value, anything else raises `ValueError` (modelled as `none`).  (Python
also strips whitespace and allows underscores between digits; those forms
never arise in this code base and are not modelled.)
-/

/-- Little-endian decimal digits with explicit fuel, so that the kernel
can evaluate the definition (structural recursion on the fuel). -/
def digitsLEFuel : Nat → Nat → List Nat
  | 0, n => [n % 10]
  | fuel + 1, n => if n < 10 then [n] else n % 10 :: digitsLEFuel fuel (n / 10)

/-- Little-endian decimal digits of a natural number (`digitsLE 0 = [0]`);
fuel `n` always suffices. -/
def digitsLE (n : Nat) : List Nat := digitsLEFuel n n

/-- The character for a single decimal digit. -/
def digitChar (d : Nat) : Char := Char.ofNat (48 + d)

/-- Python `str` on a nonnegative integer. -/
def pyStrNat (n : Nat) : String := ⟨(digitsLE n).reverse.map digitChar⟩

/-- Python `str` on an integer. -/
def pyIntStr (i : Int) : String :=
  if i < 0 then "-" ++ pyStrNat (-i).toNat else pyStrNat i.toNat

/-- The numeric value of a decimal digit character, if it is one. -/
def charDigit? (c : Char) : Option Nat :=
  if 48 ≤ c.toNat ∧ c.toNat ≤ 57 then some (c.toNat - 48) else none

/-- Accumulating parse of a run of decimal digit characters. -/
def parseDigitsAux : List Char → Nat → Option Nat
  | [], acc => some acc
  | c :: cs, acc =>
    match charDigit? c with
    | some d => parseDigitsAux cs (10 * acc + d)
    | none => none

/-- Parse of a nonempty run of decimal digit characters. -/
def parseDigits? (cs : List Char) : Option Nat :=
  if cs = [] then none else parseDigitsAux cs 0

/-- Python `int` on a string (`none` models a raised `ValueError`). -/
def pyInt? (s : String) : Option Int :=
  match s.data with
  | [] => none
  | c :: cs =>
    if c = '-' then
      match parseDigits? cs with
      | some n => some (-(n : Int))
      | none => none
    else if c = '+' then
      match parseDigits? cs with
      | some n => some ((n : Int))
      | none => none
    else
      match parseDigits? (c :: cs) with
      | some n => some ((n : Int))
      | none => none

/-- The big-endian value of a reversed digit list. -/
def valLE : List Nat → Nat
  | [] => 0
  | d :: ds => d + 10 * valLE ds

/-! ## Data model

Rows of the sqlite tables relevant to the voting core (src/database.py
`init_db`).  `id`/`created_at` autoincrement and timestamp columns are
omitted: no claim depends on them.  Vote-row numeric fields are `Int`
because `vote_success` fills them from Python `int()` over session
metadata, which can produce negative values.  The `people` join used by
the leaderboard queries always succeeds in the application (every car row
is created together with its person row), so the person table is not
modelled.
-/

/-- A row of the `shows` table (fields used by the voting core). -/
structure ShowRow where
  id : Int
  slug : String
  voting_open : Bool
  is_active : Bool
deriving Repr, DecidableEq

/-- A row of the `show_cars` table (fields used by the voting core). -/
structure CarRow where
  id : Int
  show_id : Int
  car_number : Int
  car_token : String
deriving Repr, DecidableEq

/-- A row of the `votes` table: one committed paid-vote ledger entry. -/
structure VoteRow where
  show_id : Int
  show_car_id : Int
  category : String
  vote_qty : Int
  amount_cents : Int
  stripe_session_id : String
deriving Repr, DecidableEq

/-- The relational store. -/
structure DB where
  shows : List ShowRow
  cars : List CarRow
  votes : List VoteRow
deriving Repr, DecidableEq

/-- A Stripe checkout session as the app reads it back:
`payment_status`, `amount_total` (`none` models a JSON null) and the
string-to-string metadata attached at creation time. -/
structure StripeSession where
  id : String
  payment_status : String
  amount_total : Option Int
  metadata : List (String × String)
deriving Repr, DecidableEq

/-- The state of the external checkout gateway: whether the Stripe API key
is configured, a counter used to mint fresh session identifiers, and the
sessions created so far. -/
structure StripeState where
  configured : Bool
  counter : Nat
  sessions : List StripeSession
deriving Repr, DecidableEq

/-- `database.get_show_by_slug`. -/
def get_show_by_slug (db : DB) (slug : String) : Option ShowRow :=
  db.shows.find? (fun sh => sh.slug == slug)

/-- `database.get_show_car_public_by_token` (owner fields dropped). -/
def get_show_car_public_by_token (db : DB) (show_id : Int) (car_token : String) : Option CarRow :=
  db.cars.find? (fun c => c.show_id == show_id && c.car_token == car_token)

/-- `database.set_show_voting_open`. -/
def set_show_voting_open (db : DB) (show_id : Int) (b : Bool) : DB :=
  { db with shows := db.shows.map (fun sh =>
      if sh.id == show_id then { sh with voting_open := b } else sh) }

/-! ## Vote ledger operations (src/database.py) -/

/-- Outcome of the sqlite `INSERT` into `votes`.  The only constraint of
the table that the insert of `record_paid_votes` can violate is the
`UNIQUE` index on `stripe_session_id`: every column is bound to a non-null
value, the autoincrement primary key cannot collide, and sqlite foreign
keys are not enabled by the application. -/
inductive InsertOutcome where
  | inserted (votes : List VoteRow)
  | integrityError
deriving Repr, DecidableEq

/-- The `INSERT INTO votes ...` statement, guarded by the table's unique
index on `stripe_session_id`. -/
def votes_insert (votes : List VoteRow) (r : VoteRow) : InsertOutcome :=
  if votes.any (fun v => v.stripe_session_id == r.stripe_session_id) then .integrityError
  else .inserted (votes ++ [r])

/-- `database.record_paid_votes`: attempts the insert and swallows any
`sqlite3.IntegrityError` (`except ... : pass`), returning normally either
way. -/
def record_paid_votes (votes : List VoteRow) (r : VoteRow) : List VoteRow :=
  match votes_insert votes r with
  | .inserted vs => vs
  | .integrityError => votes

/-- `database.reset_votes_for_show`: `DELETE FROM votes WHERE show_id = ?`.
The second component is the Python return value: the function is declared
`-> None` and returns no value, modelled as `none : Option Nat` so it can
be compared with the count the spec promises. -/
def reset_votes_for_show (votes : List VoteRow) (show_id : Int) :
    List VoteRow × Option Nat :=
  (votes.filter (fun v => !(v.show_id == show_id)), none)

/-! ## Leaderboard aggregation (src/database.py) -/

/-- The `votes JOIN show_cars` rows of one show, projected to
(category, car_number, vote_qty) — the inputs of both leaderboard
queries. -/
def vote_join_rows (db : DB) (show_id : Int) : List (String × Int × Int) :=
  (db.votes.filter (fun v => v.show_id == show_id)).filterMap
    (fun v => (db.cars.find? (fun c => c.id == v.show_car_id)).map
      (fun c => (v.category, c.car_number, v.vote_qty)))

/-- `SUM(v.vote_qty)` over the join rows of one car number. -/
def sumQty (rows : List (String × Int × Int)) (n : Int) : Int :=
  ((rows.filter (fun r => r.2.1 == n)).map (fun r => r.2.2)).sum

/-- The sql `ORDER BY total_votes DESC, car_number ASC` comparator on
(car_number, total) pairs. -/
def rankLE (a b : Int × Int) : Bool :=
  decide (b.2 < a.2) || (decide (a.2 = b.2) && decide (a.1 ≤ b.1))

/-- String comparator for `ORDER BY category ASC`. -/
def strLE (a b : String) : Bool := decide (a ≤ b)

/-- `database.leaderboard_by_category`: the Python dict, as an association
list from category to its ranking.  The sql groups by (category,
car_number), sums `vote_qty`, and orders by category ascending then total
descending then car number ascending; the Python loop splits the rows into
one ordered list per category. -/
def leaderboard_by_category (db : DB) (show_id : Int) :
    List (String × List (Int × Int)) :=
  let rows := vote_join_rows db show_id
  let cats := ((rows.map (fun r => r.1)).dedup).mergeSort strLE
  cats.map (fun c =>
    let crows := rows.filter (fun r => r.1 == c)
    let cars := (crows.map (fun r => r.2.1)).dedup
    (c, (cars.map (fun n => (n, sumQty crows n))).mergeSort rankLE))

/-- `database.leaderboard_overall`: sums across all categories per car
number, ordered by total descending then car number ascending. -/
def leaderboard_overall (db : DB) (show_id : Int) : List (Int × Int) :=
  let rows := vote_join_rows db show_id
  let cars := (rows.map (fun r => r.2.1)).dedup
  (cars.map (fun n => (n, sumQty rows n))).mergeSort rankLE

/-! ## Checkout session initiation (src/app.py `create_checkout_session`) -/

/-- `app.CATEGORY_SLUGS`: the closed category enumeration, slug to display
name. -/
def CATEGORY_SLUGS : List (String × String) :=
  [("army", "Army"), ("navy", "Navy"), ("air-force", "Air Force"),
   ("marines", "Marines"), ("coast-guard", "Coast Guard"),
   ("space-force", "Space Force"), ("peoples-choice", "People’s Choice")]

/-- The display names of the category enumeration. -/
def categoryNames : List String := CATEGORY_SLUGS.map Prod.snd

/-- `app.VOTE_PRICE_CENTS`: the fixed unit price per vote, $1. -/
def VOTE_PRICE_CENTS : Int := 100

/-- The form fields of a `POST /create-checkout-session` request (already
stripped, as the handler strips them on arrival). -/
structure CheckoutForm where
  show_slug : String
  car_token : String
  category_slug : String
  vote_qty_raw : String
deriving Repr, DecidableEq

/-- The distinct responses of the `create_checkout_session` handler. -/
inductive CheckoutResult where
  | stripeNotConfigured
  | showNotFound
  | votingClosed
  | invalidCategory
  | carNotFound
  | invalidQty
  | qtyOutOfRange
  | ok (session_id : String)
deriving Repr, DecidableEq

/-- The metadata dict a vote checkout session is created with:
show id, car id, category display name and quantity, all stringified. -/
def stdMetadata (show_id car_id : Int) (catName : String) (q : Int) :
    List (String × String) :=
  [("show_id", pyIntStr show_id), ("show_car_id", pyIntStr car_id),
   ("category", catName), ("vote_qty", pyIntStr q)]

/-- `app.create_checkout_session`: validates stripe configuration, show,
voting-open flag, category slug, car token and quantity, in the source
order, and only then creates a gateway session carrying the metadata
(show id, car id, category display name, quantity) with
`unit_amount = VOTE_PRICE_CENTS` and `quantity = vote_qty`, so the
session total is `VOTE_PRICE_CENTS * vote_qty`. -/
def create_checkout_session (st : StripeState) (db : DB) (f : CheckoutForm) :
    CheckoutResult × StripeState :=
  if st.configured = false then (.stripeNotConfigured, st)
  else
    match get_show_by_slug db f.show_slug with
    | none => (.showNotFound, st)
    | some sh =>
      if sh.voting_open = false then (.votingClosed, st)
      else
        match CATEGORY_SLUGS.lookup f.category_slug with
        | none => (.invalidCategory, st)
        | some catName =>
          match get_show_car_public_by_token db sh.id f.car_token with
          | none => (.carNotFound, st)
          | some car =>
            match pyInt? f.vote_qty_raw with
            | none => (.invalidQty, st)
            | some q =>
              if q < 1 ∨ q > 50 then (.qtyOutOfRange, st)
              else
                let sid := "cs_" ++ pyStrNat st.counter
                let sess : StripeSession :=
                  { id := sid
                    payment_status := "unpaid"
                    amount_total := some (VOTE_PRICE_CENTS * q)
                    metadata := stdMetadata sh.id car.id catName q }
                (.ok sid, { st with sessions := st.sessions ++ [sess],
                                    counter := st.counter + 1 })

/-- A successful payment of a checkout session on the Stripe side: the
session's `payment_status` becomes "paid"; nothing else changes. -/
def payStripe (st : StripeState) (session_id : String) : StripeState :=
  { st with sessions := st.sessions.map (fun s =>
      if s.id == session_id then { s with payment_status := "paid" } else s) }

/-! ## Checkout reconciliation (src/app.py `vote_success`) -/

/-- The distinct outcomes of the `GET /success` reconciliation handler.
`metadataParseError` is the uncaught `ValueError` of `int()` on a
malformed metadata field (an http 500); `invalidMetadata` is the
handler's explicit "Invalid metadata." 500 response. -/
inductive ReconcileResult where
  | stripeNotConfigured
  | missingSessionId
  | sessionNotFound
  | notPaid
  | metadataParseError
  | invalidMetadata
  | success
deriving Repr, DecidableEq

/-- `md.get(key, "0") or "0"`: the metadata string fed to `int()` for a
numeric field — the default covers both a missing key and an empty
value. -/
def mdIntStr (md : List (String × String)) (k : String) : String :=
  let s := (md.lookup k).getD "0"
  if s = "" then "0" else s

/-- The ledger row minted by `vote_success` from a session and its three
parsed numeric metadata fields. -/
def sessionVoteRow (sess : StripeSession) (show_id show_car_id vote_qty : Int) : VoteRow :=
  { show_id := show_id
    show_car_id := show_car_id
    category := (sess.metadata.lookup "category").getD ""
    vote_qty := vote_qty
    amount_cents := sess.amount_total.getD 0
    stripe_session_id := sess.id }

/-- `app.vote_success`: resolves the session, rejects non-paid sessions,
parses the metadata with Python truthiness checks, and commits via
`record_paid_votes`.  Returns the handler outcome and the new `votes`
table. -/
def vote_success (st : StripeState) (votes : List VoteRow) (session_id : String) :
    ReconcileResult × List VoteRow :=
  if st.configured = false then (.stripeNotConfigured, votes)
  else if session_id = "" then (.missingSessionId, votes)
  else
    match st.sessions.find? (fun s => s.id == session_id) with
    | none => (.sessionNotFound, votes)
    | some sess =>
      if sess.payment_status ≠ "paid" then (.notPaid, votes)
      else
        match pyInt? (mdIntStr sess.metadata "show_id"),
              pyInt? (mdIntStr sess.metadata "show_car_id"),
              pyInt? (mdIntStr sess.metadata "vote_qty") with
        | some show_id, some show_car_id, some vote_qty =>
          if show_id = 0 ∨ show_car_id = 0 ∨
              (sess.metadata.lookup "category").getD "" = "" ∨ vote_qty = 0 then
            (.invalidMetadata, votes)
          else
            (.success, record_paid_votes votes (sessionVoteRow sess show_id show_car_id vote_qty))
        | _, _, _ => (.metadataParseError, votes)

/-! ## Basic facts about the commit path -/

/-- Number of ledger entries keyed by a given session identifier. -/
def countSession (votes : List VoteRow) (sid : String) : Nat :=
  (votes.filter (fun v => v.stripe_session_id == sid)).length

/-- Proof helper: the row `vote_success` would commit for a session
identifier, independent of the current ledger (`none` when the attempt
does not reach the insert). -/
def reconcileRow? (st : StripeState) (sid : String) : Option VoteRow :=
  if st.configured = false then none
  else if sid = "" then none
  else
    match st.sessions.find? (fun s => s.id == sid) with
    | none => none
    | some sess =>
      if sess.payment_status ≠ "paid" then none
      else
        match pyInt? (mdIntStr sess.metadata "show_id"),
              pyInt? (mdIntStr sess.metadata "show_car_id"),
              pyInt? (mdIntStr sess.metadata "vote_qty") with
        | some i, some j, some q =>
          if i = 0 ∨ j = 0 ∨ (sess.metadata.lookup "category").getD "" = "" ∨ q = 0 then none
          else some (sessionVoteRow sess i j q)
        | _, _, _ => none

/-- `k` reconciliation attempts of the same session identifier, as the
user reloading the `/success` return page `k` times. -/
def reconcileN (st : StripeState) (sid : String) (votes : List VoteRow) : Nat → List VoteRow
  | 0 => votes
  | k + 1 => (vote_success st (reconcileN st sid votes k) sid).2

/-- A paid vote checkout session with well-formed metadata, used as a
concrete test vector. -/
def demoPaidSession : StripeSession :=
  { id := "cs_1"
    payment_status := "paid"
    amount_total := some 400
    metadata := [("show_id", "1"), ("show_car_id", "9"),
                 ("category", "Navy"), ("vote_qty", "4")] }

/-- A gateway state holding `demoPaidSession`. -/
def demoStripe : StripeState :=
  { configured := true, counter := 1, sessions := [demoPaidSession] }

/-- An unpaid (still open) vote checkout session. -/
def demoUnpaidSession : StripeSession :=
  { id := "cs_2"
    payment_status := "unpaid"
    amount_total := some 400
    metadata := [("show_id", "1"), ("show_car_id", "9"),
                 ("category", "Navy"), ("vote_qty", "4")] }

/-- A gateway state holding `demoUnpaidSession`. -/
def demoUnpaidStripe : StripeState :=
  { configured := true, counter := 1, sessions := [demoUnpaidSession] }

/-- A required metadata field of a paid session is missing or malformed as
`vote_success` can detect it: a numeric field whose string (after the
`or "0"` defaulting) does not parse as an integer, a numeric field equal
to zero, or an absent/empty category. -/
def MetadataBad (sess : StripeSession) : Prop :=
  pyInt? (mdIntStr sess.metadata "show_id") = none ∨
  pyInt? (mdIntStr sess.metadata "show_car_id") = none ∨
  pyInt? (mdIntStr sess.metadata "vote_qty") = none ∨
  pyInt? (mdIntStr sess.metadata "show_id") = some 0 ∨
  pyInt? (mdIntStr sess.metadata "show_car_id") = some 0 ∨
  pyInt? (mdIntStr sess.metadata "vote_qty") = some 0 ∨
  (sess.metadata.lookup "category").getD "" = ""

/-- A paid session whose quantity metadata is the malformed (negative)
value "-5" — not a positive bounded vote quantity. -/
def negQtySession : StripeSession :=
  { id := "cs_neg"
    payment_status := "paid"
    amount_total := some 400
    metadata := [("show_id", "1"), ("show_car_id", "9"),
                 ("category", "Navy"), ("vote_qty", "-5")] }

/-- A gateway state holding `negQtySession`. -/
def negQtyStripe : StripeState :=
  { configured := true, counter := 2, sessions := [negQtySession] }

/-- A paid session whose quantity metadata is not numeric at all. -/
def nonIntQtySession : StripeSession :=
  { id := "cs_abc"
    payment_status := "paid"
    amount_total := some 400
    metadata := [("show_id", "1"), ("show_car_id", "9"),
                 ("category", "Navy"), ("vote_qty", "abc")] }

/-- A gateway state holding `nonIntQtySession`. -/
def nonIntQtyStripe : StripeState :=
  { configured := true, counter := 2, sessions := [nonIntQtySession] }

/-- A paid session carrying a category name outside the enumeration. -/
def bogusCategorySession : StripeSession :=
  { id := "cs_bogus"
    payment_status := "paid"
    amount_total := some 400
    metadata := [("show_id", "1"), ("show_car_id", "9"),
                 ("category", "Best Mullet"), ("vote_qty", "4")] }

/-- A gateway state holding `bogusCategorySession`. -/
def bogusCategoryStripe : StripeState :=
  { configured := true, counter := 3, sessions := [bogusCategorySession] }

/-- A show with voting closed. -/
def demoClosedShow : ShowRow :=
  { id := 1, slug := "karman-charity-show", voting_open := false, is_active := true }

/-- A registered car of `demoClosedShow`. -/
def demoCar : CarRow :=
  { id := 9, show_id := 1, car_number := 9, car_token := "tok9" }

/-- A store whose only show has voting closed. -/
def demoClosedDB : DB := { shows := [demoClosedShow], cars := [demoCar], votes := [] }

/-- An empty configured gateway. -/
def emptyStripe : StripeState := { configured := true, counter := 0, sessions := [] }

/-- A well-formed checkout form for `demoClosedDB`. -/
def demoForm : CheckoutForm :=
  { show_slug := "karman-charity-show", car_token := "tok9",
    category_slug := "navy", vote_qty_raw := "4" }

/-- Three ledger entries: two of show 1, one of show 2. -/
def demoVotesC9 : List VoteRow :=
  [{ show_id := 1, show_car_id := 5, category := "Army", vote_qty := 3,
     amount_cents := 300, stripe_session_id := "cs_a" },
   { show_id := 1, show_car_id := 7, category := "Army", vote_qty := 5,
     amount_cents := 500, stripe_session_id := "cs_b" },
   { show_id := 2, show_car_id := 11, category := "Navy", vote_qty := 1,
     amount_cents := 100, stripe_session_id := "cs_c" }]

/-- A row that duplicates the session identifier of the first entry of
`demoVotesC9` with different content. -/
def demoDupRow : VoteRow :=
  { show_id := 1, show_car_id := 6, category := "Navy", vote_qty := 2,
    amount_cents := 200, stripe_session_id := "cs_a" }

/-! ## System model: reachable states

The voting core as a transition system.  A state is the store plus the
gateway.  Steps are: a `create_checkout_session` request, a payment
completing on the Stripe side, a `vote_success` reconciliation request, an
admin vote reset, and an arbitrary rewrite of the show/car registries
(over-approximating registration, check-in and the admin voting toggles,
none of which touch the `votes` table or the gateway). -/

/-- Store plus gateway. -/
structure SysState where
  db : DB
  stripe : StripeState
deriving Repr, DecidableEq

/-- The `create_checkout_session` handler's effect on the system. -/
def applyCheckout (s : SysState) (f : CheckoutForm) : SysState :=
  { s with stripe := (create_checkout_session s.stripe s.db f).2 }

/-- A payment completing at the gateway. -/
def applyPay (s : SysState) (sid : String) : SysState :=
  { s with stripe := payStripe s.stripe sid }

/-- The `vote_success` handler's effect on the system. -/
def applyReconcile (s : SysState) (sid : String) : SysState :=
  { s with db := { s.db with votes := (vote_success s.stripe s.db.votes sid).2 } }

/-- The admin `reset_votes_for_show` effect on the system. -/
def applyReset (s : SysState) (show_id : Int) : SysState :=
  { s with db := { s.db with votes := (reset_votes_for_show s.db.votes show_id).1 } }

/-- Any rewrite of the show and car registries (registration, check-in,
voting-open toggles, placeholder creation): the `votes` table and the
gateway are untouched. -/
def applyRegistry (s : SysState) (shows : List ShowRow) (cars : List CarRow) : SysState :=
  { s with db := { s.db with shows := shows, cars := cars } }

/-- One step of the voting core. -/
inductive Step : SysState → SysState → Prop
  | checkout (s : SysState) (f : CheckoutForm) : Step s (applyCheckout s f)
  | pay (s : SysState) (sid : String) : Step s (applyPay s sid)
  | reconcile (s : SysState) (sid : String) : Step s (applyReconcile s sid)
  | reset (s : SysState) (show_id : Int) : Step s (applyReset s show_id)
  | registry (s : SysState) (shows : List ShowRow) (cars : List CarRow) :
      Step s (applyRegistry s shows cars)

/-- Reachability under `Step`. -/
def Reachable : SysState → SysState → Prop := Relation.ReflTransGen Step

/-- A starting state: empty ledger, no gateway sessions yet. -/
def SysInit (s : SysState) : Prop := s.db.votes = [] ∧ s.stripe.sessions = []

/-- A gateway session as `create_checkout_session` mints them: metadata in
the standard shape with an enumerated category name and a quantity in
`[1, 50]`, and the session total equal to `VOTE_PRICE_CENTS` times the
quantity. -/
def GoodSession (sess : StripeSession) : Prop :=
  ∃ i j catName q,
    catName ∈ categoryNames ∧ 1 ≤ q ∧ q ≤ 50 ∧
    sess.amount_total = some (VOTE_PRICE_CENTS * q) ∧
    sess.metadata = stdMetadata i j catName q

/-- A ledger row with an enumerated category, a bounded positive
quantity, and an amount of `VOTE_PRICE_CENTS` per vote. -/
def GoodVote (v : VoteRow) : Prop :=
  v.category ∈ categoryNames ∧ v.amount_cents = VOTE_PRICE_CENTS * v.vote_qty ∧
  1 ≤ v.vote_qty ∧ v.vote_qty ≤ 50

/-- The system invariant: every gateway session is well-formed and every
ledger row is well-formed. -/
def SysInv (s : SysState) : Prop :=
  (∀ sess ∈ s.stripe.sessions, GoodSession sess) ∧ (∀ v ∈ s.db.votes, GoodVote v)

/-- A show with voting open. -/
def demoOpenShow : ShowRow :=
  { id := 1, slug := "karman-charity-show", voting_open := true, is_active := true }

/-- A store with one open show, one registered car, empty ledger. -/
def demoOpenDB : DB := { shows := [demoOpenShow], cars := [demoCar], votes := [] }

/-- The initial system state of the demo scenario. -/
def sysInit0 : SysState := { db := demoOpenDB, stripe := emptyStripe }

/-- The demo scenario: checkout, payment, reconciliation. -/
def sysFinal : SysState :=
  applyReconcile (applyPay (applyCheckout sysInit0 demoForm) "cs_0") "cs_0"

/-- The declared ordering of leaderboard rows: strictly descending total,
ties broken by strictly ascending car number. -/
def rankRel (a b : Int × Int) : Prop := b.2 < a.2 ∨ (a.2 = b.2 ∧ a.1 < b.1)

/-- Car 5 of the leaderboard test vector. -/
def demoCar5 : CarRow := { id := 105, show_id := 1, car_number := 5, car_token := "tok5" }

/-- Car 7 of the leaderboard test vector. -/
def demoCar7 : CarRow := { id := 107, show_id := 1, car_number := 7, car_token := "tok7" }

/-- The spec's leaderboard test vector: car 5 Army=3, car 7 Army=5,
car 5 People’s Choice=2, all in show 1. -/
def demoDB6 : DB :=
  { shows := [demoOpenShow]
    cars := [demoCar5, demoCar7]
    votes :=
      [{ show_id := 1, show_car_id := 105, category := "Army", vote_qty := 3,
         amount_cents := 300, stripe_session_id := "s1" },
       { show_id := 1, show_car_id := 107, category := "Army", vote_qty := 5,
         amount_cents := 500, stripe_session_id := "s2" },
       { show_id := 1, show_car_id := 105, category := "People’s Choice", vote_qty := 2,
         amount_cents := 200, stripe_session_id := "s3" }] }

/-- The Army ranking of the test vector, in the shape the by-category
leaderboard stores it. -/
def armyRanking : List (Int × Int) :=
  ((((vote_join_rows demoDB6 1).filter (fun r => r.1 == "Army")).map
    (fun r => r.2.1)).dedup.map
      (fun n => (n,
        sumQty ((vote_join_rows demoDB6 1).filter (fun r => r.1 == "Army")) n))).mergeSort
    rankLE

/-! ## Theorems -/

theorem digitsLEFuel_ne_nil (fuel n : Nat) : digitsLEFuel fuel n ≠ [] := by
  cases fuel with
  | zero => simp [digitsLEFuel]
  | succ fuel =>
    rw [digitsLEFuel]
    split <;> simp

theorem digitsLE_ne_nil (n : Nat) : digitsLE n ≠ [] := digitsLEFuel_ne_nil n n

theorem digitsLEFuel_lt (fuel : Nat) : ∀ n, ∀ d ∈ digitsLEFuel fuel n, d < 10 := by
  induction fuel with
  | zero =>
    intro n d hd
    simp [digitsLEFuel] at hd
    omega
  | succ fuel ih =>
    intro n d hd
    rw [digitsLEFuel] at hd
    split at hd
    next h =>
      rw [List.mem_singleton.mp hd]
      omega
    next h =>
      rcases List.mem_cons.mp hd with rfl | hd
      · omega
      · exact ih (n / 10) d hd

theorem digitsLE_lt (n : Nat) : ∀ d ∈ digitsLE n, d < 10 := digitsLEFuel_lt n n

theorem valLE_digitsLEFuel (fuel : Nat) :
    ∀ n, n ≤ fuel → valLE (digitsLEFuel fuel n) = n := by
  induction fuel with
  | zero =>
    intro n hn
    have h0 : n = 0 := by omega
    subst h0
    rfl
  | succ fuel ih =>
    intro n hn
    rw [digitsLEFuel]
    split
    next h => simp [valLE]
    next h =>
      rw [valLE, ih (n / 10) (by omega)]
      omega

theorem valLE_digitsLE (n : Nat) : valLE (digitsLE n) = n :=
  valLE_digitsLEFuel n n (Nat.le_refl n)

theorem charDigit?_digitChar : ∀ d, d < 10 → charDigit? (digitChar d) = some d := by
  decide

theorem digitChar_ne_minus : ∀ d, d < 10 → digitChar d ≠ '-' := by
  decide

theorem digitChar_ne_plus : ∀ d, d < 10 → digitChar d ≠ '+' := by
  decide

theorem parseDigitsAux_map (ds : List Nat) (h : ∀ d ∈ ds, d < 10) :
    ∀ acc, parseDigitsAux (ds.map digitChar) acc =
      some (ds.foldl (fun a d => 10 * a + d) acc) := by
  induction ds with
  | nil => intro acc; rfl
  | cons d ds ih =>
    intro acc
    have hd : d < 10 := h d (List.mem_cons_self d ds)
    simp only [List.map_cons, parseDigitsAux, charDigit?_digitChar d hd, List.foldl_cons]
    exact ih (fun x hx => h x (List.mem_cons_of_mem d hx)) (10 * acc + d)

theorem foldl_reverse_valLE (ds : List Nat) :
    ds.reverse.foldl (fun a d => 10 * a + d) 0 = valLE ds := by
  suffices h : ∀ acc, ds.reverse.foldl (fun a d => 10 * a + d) acc =
      acc * 10 ^ ds.length + valLE ds by
    simpa using h 0
  induction ds with
  | nil => intro acc; simp [valLE]
  | cons d ds ih =>
    intro acc
    simp only [List.reverse_cons, List.foldl_append, List.foldl_cons, List.foldl_nil,
      ih, valLE, List.length_cons]
    ring

theorem parseDigits?_pyStrNat (n : Nat) :
    parseDigits? ((digitsLE n).reverse.map digitChar) = some n := by
  have hne : (digitsLE n).reverse.map digitChar ≠ [] := by
    simp [digitsLE_ne_nil n]
  rw [parseDigits?, if_neg hne]
  rw [parseDigitsAux_map _ (fun d hd => digitsLE_lt n d (List.mem_reverse.mp hd)) 0]
  rw [foldl_reverse_valLE, valLE_digitsLE]

theorem pyInt?_pyStrNat (n : Nat) : pyInt? (pyStrNat n) = some (n : Int) := by
  obtain ⟨d, ds, hds⟩ : ∃ d ds, (digitsLE n).reverse = d :: ds := by
    rcases h : (digitsLE n).reverse with _ | ⟨d, ds⟩
    · exact absurd (by simpa using congrArg List.reverse h) (digitsLE_ne_nil n)
    · exact ⟨d, ds, rfl⟩
  have hd10 : d < 10 := digitsLE_lt n d (List.mem_reverse.mp (hds ▸ List.mem_cons_self d ds))
  have hdata : (pyStrNat n).data = digitChar d :: ds.map digitChar := by
    simp [pyStrNat, hds]
  simp only [pyInt?, hdata]
  rw [if_neg (digitChar_ne_minus d hd10), if_neg (digitChar_ne_plus d hd10)]
  have hlist : digitChar d :: ds.map digitChar = (digitsLE n).reverse.map digitChar := by
    simp [hds]
  rw [hlist, parseDigits?_pyStrNat n]

theorem pyStrNat_ne_empty (n : Nat) : pyStrNat n ≠ "" := by
  intro h
  have hd := congrArg String.data h
  simp [pyStrNat] at hd
  exact digitsLE_ne_nil n hd

theorem pyInt?_pyIntStr (i : Int) : pyInt? (pyIntStr i) = some i := by
  by_cases hi : i < 0
  · rw [pyIntStr, if_pos hi]
    have hdata : ("-" ++ pyStrNat (-i).toNat).data = '-' :: (pyStrNat (-i).toNat).data := by
      simp [String.data_append]
    simp only [pyInt?, hdata, reduceIte]
    have hds : (pyStrNat (-i).toNat).data = (digitsLE (-i).toNat).reverse.map digitChar := rfl
    rw [hds, parseDigits?_pyStrNat]
    simp only [Option.some.injEq, Int.ofNat_eq_coe]
    omega
  · rw [pyIntStr, if_neg hi, pyInt?_pyStrNat]
    simp only [Option.some.injEq, Int.ofNat_eq_coe]
    omega

theorem pyIntStr_ne_empty (i : Int) : pyIntStr i ≠ "" := by
  rw [pyIntStr]
  split
  · intro h
    have := congrArg String.data h
    simp [String.data_append] at this
  · exact pyStrNat_ne_empty _

theorem vote_success_eq (st : StripeState) (votes : List VoteRow) (sid : String) :
    vote_success st votes sid =
      ((vote_success st [] sid).1,
        match reconcileRow? st sid with
        | some r => record_paid_votes votes r
        | none => votes) := by
  unfold vote_success reconcileRow?
  repeat' split
  all_goals simp_all

theorem reconcileRow?_some {st : StripeState} {sid : String} {r : VoteRow}
    (h : reconcileRow? st sid = some r) :
    ∃ sess i j q, st.sessions.find? (fun s => s.id == sid) = some sess ∧
      pyInt? (mdIntStr sess.metadata "show_id") = some i ∧
      pyInt? (mdIntStr sess.metadata "show_car_id") = some j ∧
      pyInt? (mdIntStr sess.metadata "vote_qty") = some q ∧
      r = sessionVoteRow sess i j q := by
  unfold reconcileRow? at h
  repeat' split at h
  all_goals simp_all

theorem countSession_eq_zero_iff {votes : List VoteRow} {sid : String} :
    countSession votes sid = 0 ↔ ∀ v ∈ votes, v.stripe_session_id ≠ sid := by
  simp [countSession, List.length_eq_zero, List.filter_eq_nil_iff]

theorem record_paid_votes_dup {votes : List VoteRow} {r : VoteRow}
    (h : countSession votes r.stripe_session_id ≠ 0) :
    votes_insert votes r = .integrityError ∧ record_paid_votes votes r = votes := by
  have hex : ∃ v ∈ votes, v.stripe_session_id = r.stripe_session_id := by
    by_contra hall
    push_neg at hall
    exact h (countSession_eq_zero_iff.mpr hall)
  have hany : votes.any (fun v => v.stripe_session_id == r.stripe_session_id) = true := by
    rw [List.any_eq_true]
    rcases hex with ⟨v, hv, he⟩
    exact ⟨v, hv, by simp [he]⟩
  exact ⟨by simp [votes_insert, hany], by simp [record_paid_votes, votes_insert, hany]⟩

theorem record_paid_votes_new {votes : List VoteRow} {r : VoteRow}
    (h : countSession votes r.stripe_session_id = 0) :
    votes_insert votes r = .inserted (votes ++ [r]) ∧
      record_paid_votes votes r = votes ++ [r] := by
  have hall := countSession_eq_zero_iff.mp h
  have hany : votes.any (fun v => v.stripe_session_id == r.stripe_session_id) = false := by
    rw [List.any_eq_false]
    intro v hv
    simpa using hall v hv
  exact ⟨by simp [votes_insert, hany], by simp [record_paid_votes, votes_insert, hany]⟩

theorem countSession_append_match {votes : List VoteRow} {r : VoteRow} :
    countSession (votes ++ [r]) r.stripe_session_id =
      countSession votes r.stripe_session_id + 1 := by
  simp [countSession, List.filter_append]

theorem reconcileRow?_isSome_of_success {st : StripeState} {sid : String}
    (h : (vote_success st [] sid).1 = .success) : (reconcileRow? st sid).isSome := by
  unfold vote_success at h
  unfold reconcileRow?
  repeat' split at h
  all_goals simp_all

theorem reconcileRow?_sid {st : StripeState} {sid : String} {r : VoteRow}
    (h : reconcileRow? st sid = some r) : r.stripe_session_id = sid := by
  obtain ⟨sess, i, j, q, hfind, _, _, _, rfl⟩ := reconcileRow?_some h
  have hp := List.find?_some hfind
  simp only [sessionVoteRow]
  simpa using hp

theorem reconcileN_stable (st : StripeState) (sid : String) (votes : List VoteRow)
    (r : VoteRow) (hrow : reconcileRow? st sid = some r)
    (hsid : r.stripe_session_id = sid) (hfresh : countSession votes sid = 0) :
    ∀ k, 1 ≤ k → reconcileN st sid votes k = votes ++ [r] := by
  intro k hk
  induction k with
  | zero => omega
  | succ k ih =>
    by_cases hk0 : k = 0
    · subst hk0
      show (vote_success st (reconcileN st sid votes 0) sid).2 = votes ++ [r]
      rw [show reconcileN st sid votes 0 = votes from rfl, vote_success_eq, hrow]
      exact (record_paid_votes_new (by rw [hsid]; exact hfresh)).2
    · have h1 : 1 ≤ k := by omega
      show (vote_success st (reconcileN st sid votes k) sid).2 = votes ++ [r]
      rw [ih h1, vote_success_eq, hrow]
      refine (record_paid_votes_dup ?_).2
      rw [hsid, countSession, List.filter_append]
      simp [hsid]

theorem countSession_append_one {votes : List VoteRow} {r : VoteRow} {sid : String}
    (hsid : r.stripe_session_id = sid) :
    countSession (votes ++ [r]) sid = countSession votes sid + 1 := by
  simp [countSession, List.filter_append, hsid]

/-- Claim C1: reconciliation is idempotent per session identifier.  If a
session identifier is fresh (no ledger entry yet) and one reconciliation
attempt succeeds, then after any positive number of attempts the ledger
holds exactly one entry keyed by that identifier, every further attempt
still reports success (the duplicate insert is a silent no-op, not an
error), and the ledger equals the one produced by the first attempt — the
votes are never incremented twice. -/
theorem C1_reconcile_idempotent (st : StripeState) (votes : List VoteRow) (sid : String)
    (hfresh : countSession votes sid = 0)
    (hsucc : (vote_success st votes sid).1 = .success) :
    ∀ k, 1 ≤ k →
      countSession (reconcileN st sid votes k) sid = 1 ∧
      (vote_success st (reconcileN st sid votes k) sid).1 = .success ∧
      reconcileN st sid votes k = reconcileN st sid votes 1 := by
  have hsucc0 : (vote_success st [] sid).1 = .success := by
    rw [vote_success_eq] at hsucc
    simpa using hsucc
  obtain ⟨r, hrow⟩ := Option.isSome_iff_exists.mp (reconcileRow?_isSome_of_success hsucc0)
  have hsid := reconcileRow?_sid hrow
  intro k hk
  have hstable := reconcileN_stable st sid votes r hrow hsid hfresh
  refine ⟨?_, ?_, ?_⟩
  · rw [hstable k hk, countSession_append_one hsid, hfresh]
  · rw [vote_success_eq]
    simpa using hsucc0
  · rw [hstable k hk, hstable 1 (le_refl 1)]

theorem C1_witness :
    countSession (reconcileN demoStripe "cs_1" [] 3) "cs_1" = 1 ∧
    (vote_success demoStripe (reconcileN demoStripe "cs_1" [] 3) "cs_1").1 = .success := by
  have h := C1_reconcile_idempotent demoStripe [] "cs_1" (by decide) (by decide) 3 (by decide)
  exact ⟨h.1, h.2.1⟩

/-- Claim C3: if the resolved session's payment status is not "paid", the
handler returns the "payment not complete" outcome and the ledger is
unchanged — no entry is created. -/
theorem C3_not_paid_no_ledger_action (st : StripeState) (votes : List VoteRow)
    (sid : String) (sess : StripeSession)
    (hcfg : st.configured = true) (hsid : sid ≠ "")
    (hfind : st.sessions.find? (fun s => s.id == sid) = some sess)
    (hnp : sess.payment_status ≠ "paid") :
    vote_success st votes sid = (.notPaid, votes) := by
  simp [vote_success, hcfg, hsid, hfind, hnp]

theorem C3_witness :
    vote_success demoUnpaidStripe [] "cs_2" = (.notPaid, []) :=
  C3_not_paid_no_ledger_action demoUnpaidStripe [] "cs_2" demoUnpaidSession
    (by decide) (by decide) (by decide) (by decide)

/-- Claim C2 (amended): for a paid session whose required metadata is
missing, empty, zero, or non-integer, reconciliation fails with a
metadata error (the uncaught `int()` exception or the explicit
"Invalid metadata." response), both distinct from the not-paid outcome;
the ledger is unchanged and no defaults reach it.  (As stated the claim
is false: a numeric field holding a *negative* integer — malformed as a
quantity — passes the truthiness check; see the counterexample.) -/
theorem C2_bad_metadata_rejected (st : StripeState) (votes : List VoteRow)
    (sid : String) (sess : StripeSession)
    (hcfg : st.configured = true) (hsid : sid ≠ "")
    (hfind : st.sessions.find? (fun s => s.id == sid) = some sess)
    (hpaid : sess.payment_status = "paid")
    (hbad : MetadataBad sess) :
    ((vote_success st votes sid).1 = .metadataParseError ∨
      (vote_success st votes sid).1 = .invalidMetadata) ∧
    (vote_success st votes sid).1 ≠ .notPaid ∧
    (vote_success st votes sid).2 = votes := by
  rcases hi : pyInt? (mdIntStr sess.metadata "show_id") with _ | i
  · simp [vote_success, hcfg, hsid, hfind, hpaid, hi]
  rcases hj : pyInt? (mdIntStr sess.metadata "show_car_id") with _ | j
  · simp [vote_success, hcfg, hsid, hfind, hpaid, hi, hj]
  rcases hq : pyInt? (mdIntStr sess.metadata "vote_qty") with _ | q
  · simp [vote_success, hcfg, hsid, hfind, hpaid, hi, hj, hq]
  have hzero : i = 0 ∨ j = 0 ∨ (sess.metadata.lookup "category").getD "" = "" ∨ q = 0 := by
    rcases hbad with h | h | h | h | h | h | h
    · simp [hi] at h
    · simp [hj] at h
    · simp [hq] at h
    · exact Or.inl (by have hh := hi.symm.trans h; simpa using hh)
    · exact Or.inr (Or.inl (by have hh := hj.symm.trans h; simpa using hh))
    · exact Or.inr (Or.inr (Or.inr (by have hh := hq.symm.trans h; simpa using hh)))
    · exact Or.inr (Or.inr (Or.inl h))
  simp [vote_success, hcfg, hsid, hfind, hpaid, hi, hj, hq, hzero]

/-- Claim C2 counterexample: reconciling a paid session whose quantity
field holds the malformed value "-5" does not fail with a metadata error —
it reports success and mints a ledger entry with a negative vote
quantity. -/
theorem C2_counterexample :
    vote_success negQtyStripe [] "cs_neg" =
      (.success, [{ show_id := 1, show_car_id := 9, category := "Navy",
                    vote_qty := -5, amount_cents := 400,
                    stripe_session_id := "cs_neg" }]) ∧
    ¬ (1 ≤ (-5 : Int)) := by
  decide

theorem C2_witness :
    ((vote_success nonIntQtyStripe [] "cs_abc").1 = .metadataParseError ∨
      (vote_success nonIntQtyStripe [] "cs_abc").1 = .invalidMetadata) ∧
    (vote_success nonIntQtyStripe [] "cs_abc").1 ≠ .notPaid ∧
    (vote_success nonIntQtyStripe [] "cs_abc").2 = [] :=
  C2_bad_metadata_rejected nonIntQtyStripe [] "cs_abc" nonIntQtySession
    (by decide) (by decide) (by decide) (by decide)
    (Or.inr (Or.inr (Or.inl (by decide))))

/-- Claim C4 counterexample: the reconciliation commit performs no
validation of the category against the enumeration — a paid session whose
metadata carries the category "Best Mullet" is committed successfully and
the stored ledger row's category is not one of the enumerated names. -/
theorem C4_counterexample :
    (vote_success bogusCategoryStripe [] "cs_bogus").1 = .success ∧
    (vote_success bogusCategoryStripe [] "cs_bogus").2 =
      [{ show_id := 1, show_car_id := 9, category := "Best Mullet",
         vote_qty := 4, amount_cents := 400, stripe_session_id := "cs_bogus" }] ∧
    "Best Mullet" ∉ categoryNames := by
  decide

/-- Claim C8: a checkout initiation against an existing show whose
`voting_open` flag is false is rejected with the closed-voting error and
the gateway state is returned untouched — no session is created and the
external gateway is never contacted, whatever the rest of the form
holds. -/
theorem C8_closed_voting_rejected (st : StripeState) (db : DB) (f : CheckoutForm)
    (sh : ShowRow) (hcfg : st.configured = true)
    (hshow : get_show_by_slug db f.show_slug = some sh)
    (hclosed : sh.voting_open = false) :
    create_checkout_session st db f = (.votingClosed, st) := by
  simp [create_checkout_session, hcfg, hshow, hclosed]

theorem C8_witness :
    create_checkout_session emptyStripe demoClosedDB demoForm = (.votingClosed, emptyStripe) :=
  C8_closed_voting_rejected emptyStripe demoClosedDB demoForm demoClosedShow
    (by decide) (by decide) (by decide)

/-- Claim C9 (amended): `reset_votes_for_show` deletes exactly the ledger
entries of the given show — every surviving entry belongs to another show
and every entry of another show survives with its multiplicity — but it
returns no deleted-entry count: its Python return value is `None`. -/
theorem C9_reset_deletes_only_show (votes : List VoteRow) (show_id : Int) :
    (∀ v ∈ (reset_votes_for_show votes show_id).1, v.show_id ≠ show_id ∧ v ∈ votes) ∧
    (∀ v : VoteRow, v.show_id ≠ show_id →
      (reset_votes_for_show votes show_id).1.count v = votes.count v) ∧
    (reset_votes_for_show votes show_id).2 = none := by
  refine ⟨?_, ?_, rfl⟩
  · intro v hv
    have hm := List.mem_filter.mp hv
    refine ⟨by simpa using hm.2, hm.1⟩
  · intro v hv
    exact List.count_filter (by simpa using hv)

/-- Claim C9 counterexample: resetting show 1 deletes its two entries,
but the function does not return the count of deleted entries (the spec
promises `count deleted`): its return value is `None`, in particular not
`2`. -/
theorem C9_counterexample :
    (demoVotesC9.length - (reset_votes_for_show demoVotesC9 1).1.length = 2) ∧
    (reset_votes_for_show demoVotesC9 1).2 ≠ some 2 ∧
    (reset_votes_for_show demoVotesC9 1).2 = none := by
  decide

theorem C9_witness :
    (∀ v ∈ (reset_votes_for_show demoVotesC9 1).1, v.show_id ≠ 1 ∧ v ∈ demoVotesC9) ∧
    (reset_votes_for_show demoVotesC9 1).1.count
      { show_id := 2, show_car_id := 11, category := "Navy", vote_qty := 1,
        amount_cents := 100, stripe_session_id := "cs_c" } = demoVotesC9.count
      { show_id := 2, show_car_id := 11, category := "Navy", vote_qty := 1,
        amount_cents := 100, stripe_session_id := "cs_c" } :=
  ⟨(C9_reset_deletes_only_show demoVotesC9 1).1,
    (C9_reset_deletes_only_show demoVotesC9 1).2.1 _ (by decide)⟩

/-- Claim C10: `record_paid_votes` is total and never propagates a store
error: the insert either violates the unique session-identifier index
(the only constraint of the `votes` table this insert can violate) — in
which case the `IntegrityError` is swallowed and the ledger is returned
unchanged, committing nothing — or it succeeds and the function returns
the ledger with exactly the new row appended. -/
theorem C10_record_paid_votes_total (votes : List VoteRow) (r : VoteRow) :
    (votes_insert votes r = .integrityError → record_paid_votes votes r = votes) ∧
    (∀ vs, votes_insert votes r = .inserted vs → record_paid_votes votes r = vs) ∧
    (votes_insert votes r = .integrityError ∨
      votes_insert votes r = .inserted (votes ++ [r])) := by
  refine ⟨?_, ?_, ?_⟩
  · intro h
    simp [record_paid_votes, h]
  · intro vs h
    simp [record_paid_votes, h]
  · unfold votes_insert
    split
    · exact Or.inl rfl
    · exact Or.inr rfl

theorem C10_witness :
    record_paid_votes demoVotesC9 demoDupRow = demoVotesC9 ∧
    record_paid_votes [] demoDupRow = [demoDupRow] :=
  ⟨(C10_record_paid_votes_total demoVotesC9 demoDupRow).1 (by decide),
    (C10_record_paid_votes_total [] demoDupRow).2.1 [demoDupRow] (by decide)⟩

theorem lookup_mem_snd {l : List (String × String)} {k v : String}
    (h : l.lookup k = some v) : v ∈ l.map Prod.snd := by
  induction l with
  | nil => simp [List.lookup] at h
  | cons p l ih =>
    rw [List.lookup] at h
    split at h
    · simp at h
      simp [h]
    · exact List.mem_cons_of_mem _ (ih h)

theorem stdMetadata_parses (a b : Int) (c : String) (q : Int) :
    pyInt? (mdIntStr (stdMetadata a b c q) "show_id") = some a ∧
    pyInt? (mdIntStr (stdMetadata a b c q) "show_car_id") = some b ∧
    pyInt? (mdIntStr (stdMetadata a b c q) "vote_qty") = some q ∧
    ((stdMetadata a b c q).lookup "category").getD "" = c := by
  have h1 : (stdMetadata a b c q).lookup "show_id" = some (pyIntStr a) := rfl
  have h2 : (stdMetadata a b c q).lookup "show_car_id" = some (pyIntStr b) := rfl
  have h3 : (stdMetadata a b c q).lookup "vote_qty" = some (pyIntStr q) := rfl
  have h4 : (stdMetadata a b c q).lookup "category" = some c := rfl
  refine ⟨?_, ?_, ?_, by rw [h4]; rfl⟩
  · rw [mdIntStr, h1]
    simp [pyIntStr_ne_empty, pyInt?_pyIntStr]
  · rw [mdIntStr, h2]
    simp [pyIntStr_ne_empty, pyInt?_pyIntStr]
  · rw [mdIntStr, h3]
    simp [pyIntStr_ne_empty, pyInt?_pyIntStr]

theorem goodSession_row {sess : StripeSession} (hg : GoodSession sess)
    {i j q : Int}
    (hi : pyInt? (mdIntStr sess.metadata "show_id") = some i)
    (hj : pyInt? (mdIntStr sess.metadata "show_car_id") = some j)
    (hq : pyInt? (mdIntStr sess.metadata "vote_qty") = some q) :
    GoodVote (sessionVoteRow sess i j q) := by
  obtain ⟨a, b, catName, qq, hcat, hq1, hq50, hamt, hmd⟩ := hg
  have hp := stdMetadata_parses a b catName qq
  rw [hmd, hp.2.2.1] at hq
  injection hq with hq
  refine ⟨?_, ?_, ?_, ?_⟩
  · show (sess.metadata.lookup "category").getD "" ∈ categoryNames
    rw [hmd, hp.2.2.2]
    exact hcat
  · show sess.amount_total.getD 0 = VOTE_PRICE_CENTS * q
    rw [hamt, ← hq]
    rfl
  · show (1 : Int) ≤ q
    omega
  · show q ≤ (50 : Int)
    omega

theorem mem_record_paid_votes {votes : List VoteRow} {r v : VoteRow}
    (h : v ∈ record_paid_votes votes r) : v ∈ votes ∨ v = r := by
  by_cases hdup : votes.any (fun x => x.stripe_session_id == r.stripe_session_id) = true
  · rw [record_paid_votes, votes_insert, if_pos hdup] at h
    exact Or.inl h
  · rw [record_paid_votes, votes_insert, if_neg hdup] at h
    rcases List.mem_append.mp h with h | h
    · exact Or.inl h
    · exact Or.inr (by simpa using h)

theorem checkout_sessions_cases (st : StripeState) (db : DB) (f : CheckoutForm) :
    (create_checkout_session st db f).2 = st ∨
    ∃ sess, (create_checkout_session st db f).2.sessions = st.sessions ++ [sess] ∧
      GoodSession sess := by
  unfold create_checkout_session
  repeat' split
  all_goals try exact Or.inl rfl
  refine Or.inr ⟨_, rfl, ?_⟩
  refine ⟨_, _, _, _, ?_, ?_, ?_, rfl, rfl⟩
  · exact lookup_mem_snd (by assumption)
  · omega
  · omega

theorem goodSession_pay {sess : StripeSession} (h : GoodSession sess) (sid : String) :
    GoodSession (if sess.id == sid then { sess with payment_status := "paid" } else sess) := by
  obtain ⟨i, j, c, q, h1, h2, h3, h4, h5⟩ := h
  split
  · exact ⟨i, j, c, q, h1, h2, h3, h4, h5⟩
  · exact ⟨i, j, c, q, h1, h2, h3, h4, h5⟩

theorem vote_success_mem_cases (st : StripeState) (votes : List VoteRow) (sid : String)
    (hs : ∀ sess ∈ st.sessions, GoodSession sess) :
    ∀ v ∈ (vote_success st votes sid).2, v ∈ votes ∨ GoodVote v := by
  intro v hv
  rw [vote_success_eq] at hv
  rcases hrow : reconcileRow? st sid with _ | r
  · rw [hrow] at hv
    exact Or.inl hv
  · rw [hrow] at hv
    have hv' : v ∈ record_paid_votes votes r := hv
    rcases mem_record_paid_votes hv' with h | rfl
    · exact Or.inl h
    · obtain ⟨sess, i, j, q, hfind, hi, hj, hq, rfl⟩ := reconcileRow?_some hrow
      exact Or.inr (goodSession_row (hs sess (List.mem_of_find?_eq_some hfind)) hi hj hq)

theorem step_inv {s s' : SysState} (hinv : SysInv s) (hstep : Step s s') : SysInv s' := by
  cases hstep with
  | checkout f =>
    refine ⟨?_, hinv.2⟩
    rcases checkout_sessions_cases s.stripe s.db f with h | ⟨sess, hsess, hgood⟩
    · intro x hx
      exact hinv.1 x (by rw [show (applyCheckout s f).stripe.sessions = s.stripe.sessions from
        congrArg StripeState.sessions h] at hx; exact hx)
    · intro x hx
      rw [show (applyCheckout s f).stripe.sessions = s.stripe.sessions ++ [sess] from hsess] at hx
      rcases List.mem_append.mp hx with h | h
      · exact hinv.1 x h
      · rw [List.mem_singleton.mp h]
        exact hgood
  | pay sid =>
    refine ⟨?_, hinv.2⟩
    intro x hx
    rcases List.mem_map.mp hx with ⟨y, hy, rfl⟩
    exact goodSession_pay (hinv.1 y hy) sid
  | reconcile sid =>
    exact ⟨hinv.1, fun v hv =>
      (vote_success_mem_cases s.stripe s.db.votes sid hinv.1 v hv).elim
        (fun h => hinv.2 v h) id⟩
  | reset show_id =>
    exact ⟨hinv.1, fun v hv => hinv.2 v (List.mem_of_mem_filter hv)⟩
  | registry shows cars =>
    exact ⟨hinv.1, hinv.2⟩

theorem reachable_inv {s0 s : SysState} (h0 : SysInit s0) (h : Reachable s0 s) :
    SysInv s := by
  induction h with
  | refl =>
    refine ⟨?_, ?_⟩
    · rw [h0.2]
      intro x hx
      cases hx
    · rw [h0.1]
      intro v hv
      cases hv
  | tail _ hstep ih => exact step_inv ih hstep

/-- Claim C4 (amended): the reconciliation commit itself performs no
category validation (see the counterexample `C4_counterexample`); the
category is validated against the enumeration at session creation, and
the commit stores whatever nonempty category string the session metadata
carries.  For the system itself the claimed invariant still holds: in
every state reachable from an initial state (empty ledger, no sessions)
through the core's operations, every ledger row's category is one of the
enumerated category names. -/
theorem C4_reachable_category_enumerated (s0 s : SysState) (h0 : SysInit s0)
    (h : Reachable s0 s) : ∀ v ∈ s.db.votes, v.category ∈ categoryNames :=
  fun v hv => ((reachable_inv h0 h).2 v hv).1

theorem create_checkout_ok {st : StripeState} {db : DB} {f : CheckoutForm}
    {sid : String} {st' : StripeState}
    (h : create_checkout_session st db f = (.ok sid, st')) :
    ∃ sess q, st'.sessions = st.sessions ++ [sess] ∧
      pyInt? f.vote_qty_raw = some q ∧ 1 ≤ q ∧ q ≤ 50 ∧
      sess.id = sid ∧ sid = "cs_" ++ pyStrNat st.counter ∧
      sess.payment_status = "unpaid" ∧
      sess.amount_total = some (VOTE_PRICE_CENTS * q) ∧
      sess.metadata.lookup "vote_qty" = some (pyIntStr q) := by
  unfold create_checkout_session at h
  repeat' split at h
  all_goals simp only [Prod.mk.injEq] at h
  all_goals try exact absurd h.1 (fun hh => CheckoutResult.noConfusion hh)
  obtain ⟨hsid, hst⟩ := h
  injection hsid with hsid
  subst hsid
  subst hst
  exact ⟨_, _, rfl, (by assumption), by omega, by omega, rfl, rfl, rfl, rfl, rfl⟩

/-- Claim C5: in every reachable system state, every ledger entry's
amount in minor units equals the fixed unit price (100 cents per vote)
times its vote quantity; and every successfully created checkout session
has total `VOTE_PRICE_CENTS * q` where `q` is the parsed requested
quantity, which is also the quantity recorded in the session metadata. -/
theorem C5_amount_is_price_times_qty (s0 s : SysState) (h0 : SysInit s0)
    (h : Reachable s0 s) :
    (∀ v ∈ s.db.votes, v.amount_cents = VOTE_PRICE_CENTS * v.vote_qty) ∧
    (∀ (st st' : StripeState) (db : DB) (f : CheckoutForm) (sid : String),
      create_checkout_session st db f = (.ok sid, st') →
      ∃ sess q, st'.sessions = st.sessions ++ [sess] ∧
        pyInt? f.vote_qty_raw = some q ∧
        sess.amount_total = some (VOTE_PRICE_CENTS * q) ∧
        sess.metadata.lookup "vote_qty" = some (pyIntStr q)) := by
  refine ⟨fun v hv => ((reachable_inv h0 h).2 v hv).2.1, ?_⟩
  intro st st' db f sid hok
  obtain ⟨sess, q, h1, h2, _, _, _, _, _, h8, h9⟩ := create_checkout_ok hok
  exact ⟨sess, q, h1, h2, h8, h9⟩

theorem demo_reachable : Reachable sysInit0 sysFinal :=
  Relation.ReflTransGen.tail
    (Relation.ReflTransGen.tail
      (Relation.ReflTransGen.tail Relation.ReflTransGen.refl
        (Step.checkout sysInit0 demoForm))
      (Step.pay (applyCheckout sysInit0 demoForm) "cs_0"))
    (Step.reconcile (applyPay (applyCheckout sysInit0 demoForm) "cs_0") "cs_0")

theorem C4_witness :
    ({ show_id := 1, show_car_id := 9, category := "Navy", vote_qty := 4,
       amount_cents := 400, stripe_session_id := "cs_0" } : VoteRow).category ∈
      categoryNames :=
  C4_reachable_category_enumerated sysInit0 sysFinal ⟨rfl, rfl⟩ demo_reachable
    { show_id := 1, show_car_id := 9, category := "Navy", vote_qty := 4,
      amount_cents := 400, stripe_session_id := "cs_0" } (by decide)

theorem C5_witness :
    ((400 : Int) = VOTE_PRICE_CENTS * (4 : Int)) ∧
    (∃ sess q,
      ((applyCheckout sysInit0 demoForm).stripe.sessions = emptyStripe.sessions ++ [sess]) ∧
      pyInt? "4" = some q ∧ sess.amount_total = some (VOTE_PRICE_CENTS * q) ∧
      sess.metadata.lookup "vote_qty" = some (pyIntStr q)) :=
  ⟨(C5_amount_is_price_times_qty sysInit0 sysFinal ⟨rfl, rfl⟩ demo_reachable).1
      { show_id := 1, show_car_id := 9, category := "Navy", vote_qty := 4,
        amount_cents := 400, stripe_session_id := "cs_0" } (by decide),
    (C5_amount_is_price_times_qty sysInit0 sysFinal ⟨rfl, rfl⟩ demo_reachable).2
      emptyStripe (applyCheckout sysInit0 demoForm).stripe demoOpenDB demoForm "cs_0"
      (by decide)⟩

theorem vote_success_success {st : StripeState} {sid : String} {sess : StripeSession}
    (votes : List VoteRow)
    (hcfg : st.configured = true) (hsid : sid ≠ "")
    (hfind : st.sessions.find? (fun s => s.id == sid) = some sess)
    (hpaid : sess.payment_status = "paid")
    {i j q : Int}
    (hi : pyInt? (mdIntStr sess.metadata "show_id") = some i)
    (hj : pyInt? (mdIntStr sess.metadata "show_car_id") = some j)
    (hq : pyInt? (mdIntStr sess.metadata "vote_qty") = some q)
    (hi0 : i ≠ 0) (hj0 : j ≠ 0) (hq0 : q ≠ 0)
    (hcat : (sess.metadata.lookup "category").getD "" ≠ "") :
    vote_success st votes sid =
      (.success, record_paid_votes votes (sessionVoteRow sess i j q)) := by
  simp [vote_success, hcfg, hsid, hfind, hpaid, hi, hj, hq, hi0, hj0, hq0, hcat]

theorem find?_pay_append (l : List StripeSession) (x : StripeSession) (sid : String)
    (hl : ∀ s ∈ l, s.id ≠ sid) (hx : x.id = sid) :
    ((l ++ [x]).map (fun s =>
        if s.id == sid then { s with payment_status := "paid" } else s)).find?
      (fun s => s.id == sid) = some { x with payment_status := "paid" } := by
  induction l with
  | nil => simp [hx]
  | cons a l ih =>
    have ha : a.id ≠ sid := hl a (List.mem_cons_self a l)
    have hb : (if a.id == sid then { a with payment_status := "paid" } else a) = a :=
      if_neg (by simpa using ha)
    rw [List.cons_append, List.map_cons, hb,
      List.find?_cons_of_neg _ (by simpa using ha)]
    exact ih (fun s hs => hl s (List.mem_cons_of_mem a hs))

theorem cs_id_ne_empty (k : Nat) : "cs_" ++ pyStrNat k ≠ "" := by
  intro h
  have hd := congrArg String.data h
  simp [String.data_append] at hd

theorem categoryNames_ne_empty : ∀ c ∈ categoryNames, c ≠ "" := by
  decide

theorem create_checkout_ok_meta {st : StripeState} {db : DB} {f : CheckoutForm}
    {sid : String} {st' : StripeState}
    (h : create_checkout_session st db f = (.ok sid, st')) :
    ∃ sh car catName q,
      get_show_by_slug db f.show_slug = some sh ∧
      get_show_car_public_by_token db sh.id f.car_token = some car ∧
      CATEGORY_SLUGS.lookup f.category_slug = some catName ∧
      sh.voting_open = true ∧ st'.configured = true ∧ 1 ≤ q ∧ q ≤ 50 ∧
      pyInt? f.vote_qty_raw = some q ∧
      sid = "cs_" ++ pyStrNat st.counter ∧
      st'.sessions = st.sessions ++
        [{ id := sid, payment_status := "unpaid",
           amount_total := some (VOTE_PRICE_CENTS * q),
           metadata := stdMetadata sh.id car.id catName q }] := by
  unfold create_checkout_session at h
  repeat' split at h
  all_goals simp only [Prod.mk.injEq] at h
  all_goals try exact absurd h.1 (fun hh => CheckoutResult.noConfusion hh)
  obtain ⟨hsid, hst⟩ := h
  injection hsid with hsid
  subst hsid
  subst hst
  refine ⟨_, _, _, _, (by assumption), (by assumption), (by assumption),
    (by simp_all), (by simp_all), by omega, by omega, (by assumption), rfl, rfl⟩

/-- Claim C7: a checkout session created while voting was open is still
committed after voting has been closed.  Toggling any show's
`voting_open` flag leaves the ledger untouched (`set_show_voting_open`
writes only the `shows` table), the reconciliation handler never reads
the flag, and a paid in-flight session reconciled against the
closed-voting store still reports success and mints its single ledger
entry — closing voting blocks only new session creation. -/
theorem C7_reconcile_after_close (st st' : StripeState) (db : DB) (f : CheckoutForm)
    (sid : String) (sh : ShowRow) (car : CarRow) (showId : Int) (b : Bool)
    (hshow : get_show_by_slug db f.show_slug = some sh)
    (hcar : get_show_car_public_by_token db sh.id f.car_token = some car)
    (hok : create_checkout_session st db f = (.ok sid, st'))
    (hsh0 : sh.id ≠ 0) (hcar0 : car.id ≠ 0)
    (hfresh : ∀ sess ∈ st.sessions, sess.id ≠ sid)
    (hcnt : countSession db.votes sid = 0) :
    (set_show_voting_open db showId b).votes = db.votes ∧
    (vote_success (payStripe st' sid) (set_show_voting_open db showId b).votes sid).1 =
      .success ∧
    countSession
      ((vote_success (payStripe st' sid) (set_show_voting_open db showId b).votes sid).2)
      sid = 1 := by
  obtain ⟨sh1, car1, catName, q, hshow1, hcar1, hcat, hopen, hconf, hq1, hq50, hq,
    hsid, hsess⟩ := create_checkout_ok_meta hok
  have hsheq : sh1 = sh := Option.some.inj (hshow1.symm.trans hshow)
  rw [hsheq] at hcar1 hsess
  have hcareq : car1 = car := Option.some.inj (hcar1.symm.trans hcar)
  rw [hcareq] at hsess
  have hvotes : (set_show_voting_open db showId b).votes = db.votes := rfl
  set sess : StripeSession :=
    { id := sid, payment_status := "unpaid",
      amount_total := some (VOTE_PRICE_CENTS * q),
      metadata := stdMetadata sh.id car.id catName q } with hsessdef
  have hfind : (payStripe st' sid).sessions.find? (fun s => s.id == sid) =
      some { sess with payment_status := "paid" } := by
    show (st'.sessions.map _).find? _ = _
    rw [hsess]
    exact find?_pay_append st.sessions sess sid hfresh rfl
  have hparse := stdMetadata_parses sh.id car.id catName q
  have hcatmem : catName ∈ categoryNames := lookup_mem_snd hcat
  have hsucc := @vote_success_success (payStripe st' sid) sid
    { sess with payment_status := "paid" }
    (set_show_voting_open db showId b).votes
    (by show st'.configured = true; exact hconf)
    (by rw [hsid]; exact cs_id_ne_empty st.counter)
    hfind rfl sh.id car.id q hparse.1 hparse.2.1 hparse.2.2.1 hsh0 hcar0 (by omega)
    (by rw [show ({ sess with payment_status := "paid" } : StripeSession).metadata =
          stdMetadata sh.id car.id catName q from rfl, hparse.2.2.2]
        exact categoryNames_ne_empty catName hcatmem)
  rw [hvotes] at hsucc ⊢
  rw [hsucc]
  refine ⟨rfl, rfl, ?_⟩
  have hrowid : (sessionVoteRow { sess with payment_status := "paid" }
      sh.id car.id q).stripe_session_id = sid := rfl
  have hnew := @record_paid_votes_new db.votes
    (sessionVoteRow { sess with payment_status := "paid" } sh.id car.id q)
    (by rw [hrowid]; exact hcnt)
  show countSession (record_paid_votes db.votes _) sid = 1
  rw [hnew.2, countSession_append_one hrowid, hcnt]

theorem C7_witness :
    (vote_success
        (payStripe (create_checkout_session emptyStripe demoOpenDB demoForm).2 "cs_0")
        (set_show_voting_open demoOpenDB 1 false).votes "cs_0").1 = .success ∧
    countSession
      ((vote_success
          (payStripe (create_checkout_session emptyStripe demoOpenDB demoForm).2 "cs_0")
          (set_show_voting_open demoOpenDB 1 false).votes "cs_0").2) "cs_0" = 1 := by
  have h := C7_reconcile_after_close emptyStripe
    (create_checkout_session emptyStripe demoOpenDB demoForm).2 demoOpenDB demoForm
    "cs_0" demoOpenShow demoCar 1 false (by decide) (by decide) (by decide)
    (by decide) (by decide) (by decide) (by decide)
  exact ⟨h.2.1, h.2.2⟩

theorem rankLE_trans : ∀ a b c : Int × Int,
    rankLE a b = true → rankLE b c = true → rankLE a c = true := by
  intro a b c hab hbc
  simp only [rankLE, Bool.or_eq_true, Bool.and_eq_true, decide_eq_true_eq] at hab hbc ⊢
  omega

theorem rankLE_total : ∀ a b : Int × Int, (rankLE a b || rankLE b a) = true := by
  intro a b
  simp only [rankLE, Bool.or_eq_true, Bool.and_eq_true, decide_eq_true_eq]
  omega

theorem ranking_spec (L : List (String × Int × Int)) :
    (∀ p : Int × Int,
      p ∈ ((L.map (fun r => r.2.1)).dedup.map (fun n => (n, sumQty L n))).mergeSort rankLE ↔
        ((∃ r ∈ L, r.2.1 = p.1) ∧ p.2 = sumQty L p.1)) ∧
    List.Pairwise rankRel
      (((L.map (fun r => r.2.1)).dedup.map (fun n => (n, sumQty L n))).mergeSort rankLE) := by
  constructor
  · intro p
    rw [(List.mergeSort_perm _ _).mem_iff, List.mem_map]
    constructor
    · rintro ⟨n, hn, rfl⟩
      refine ⟨?_, rfl⟩
      rcases List.mem_map.mp (List.mem_dedup.mp hn) with ⟨r, hr, hr2⟩
      exact ⟨r, hr, hr2⟩
    · rintro ⟨⟨r, hr, hr1⟩, h2⟩
      refine ⟨p.1, List.mem_dedup.mpr (List.mem_map.mpr ⟨r, hr, hr1⟩), ?_⟩
      obtain ⟨pa, pb⟩ := p
      simp only at h2 ⊢
      rw [← h2]
  · have hsorted := List.sorted_mergeSort rankLE_trans rankLE_total
      ((L.map (fun r => r.2.1)).dedup.map (fun n => (n, sumQty L n)))
    have hnodup0 : (L.map (fun r : String × Int × Int => r.2.1)).dedup.Nodup :=
      List.nodup_dedup _
    have hnodup : (L.map (fun r => r.2.1)).dedup.Pairwise (fun a b => a ≠ b) := hnodup0
    have hnd : ((L.map (fun r => r.2.1)).dedup.map (fun n => (n, sumQty L n))).Pairwise
        (fun a b => a.1 ≠ b.1) :=
      List.Pairwise.map (fun n => (n, sumQty L n)) (fun hab => by simpa using hab) hnodup
    have hnd2 := ((List.mergeSort_perm
        ((L.map (fun r => r.2.1)).dedup.map (fun n => (n, sumQty L n))) rankLE).pairwise_iff
      (fun h => Ne.symm h)).mpr hnd
    refine (hsorted.and hnd2).imp ?_
    intro a b hab
    obtain ⟨h1, h2⟩ := hab
    simp only [rankLE, Bool.or_eq_true, Bool.and_eq_true, decide_eq_true_eq] at h1
    show b.2 < a.2 ∨ (a.2 = b.2 ∧ a.1 < b.1)
    omega

theorem mem_lbc_iff {db : DB} {show_id : Int} {c : String} {l : List (Int × Int)} :
    (c, l) ∈ leaderboard_by_category db show_id ↔
      (c ∈ ((vote_join_rows db show_id).map (fun r => r.1)).dedup ∧
        l = ((((vote_join_rows db show_id).filter (fun r => r.1 == c)).map
              (fun r => r.2.1)).dedup.map
            (fun n => (n,
              sumQty ((vote_join_rows db show_id).filter (fun r => r.1 == c)) n))).mergeSort
          rankLE) := by
  simp only [leaderboard_by_category]
  rw [List.mem_map]
  constructor
  · rintro ⟨c', hc', heq⟩
    obtain ⟨h1, h2⟩ := Prod.mk.injEq .. ▸ heq
    subst h1
    exact ⟨(List.mergeSort_perm _ _).mem_iff.mp hc', h2.symm⟩
  · rintro ⟨hc, rfl⟩
    exact ⟨c, (List.mergeSort_perm _ _).mem_iff.mpr hc, rfl⟩

/-- Claim C6: the leaderboard contract.  `leaderboard_by_category` has
one entry exactly for each category present in the show's joined ledger
rows, and that entry's list holds exactly the (car number, summed vote
quantity) pairs of the cars voted in that category, ordered by strictly
descending total with ties broken by ascending car number;
`leaderboard_overall` holds exactly the (car number, quantity summed
across all categories) pairs of the voted cars of that show, under the
same ordering rule. -/
theorem C6_leaderboard_contract (db : DB) (show_id : Int) :
    (∀ c : String, (∃ l, (c, l) ∈ leaderboard_by_category db show_id) ↔
       ∃ r ∈ vote_join_rows db show_id, r.1 = c) ∧
    (∀ c l, (c, l) ∈ leaderboard_by_category db show_id →
       (∀ p : Int × Int, p ∈ l ↔
          ((∃ r ∈ vote_join_rows db show_id, r.1 = c ∧ r.2.1 = p.1) ∧
            p.2 = sumQty ((vote_join_rows db show_id).filter (fun r => r.1 == c)) p.1)) ∧
       List.Pairwise rankRel l) ∧
    (∀ p : Int × Int, p ∈ leaderboard_overall db show_id ↔
       ((∃ r ∈ vote_join_rows db show_id, r.2.1 = p.1) ∧
         p.2 = sumQty (vote_join_rows db show_id) p.1)) ∧
    List.Pairwise rankRel (leaderboard_overall db show_id) := by
  refine ⟨?_, ?_, ?_, ?_⟩
  · intro c
    constructor
    · rintro ⟨l, hl⟩
      have hc := (mem_lbc_iff.mp hl).1
      rcases List.mem_map.mp (List.mem_dedup.mp hc) with ⟨r, hr, hr1⟩
      exact ⟨r, hr, hr1⟩
    · rintro ⟨r, hr, hr1⟩
      refine ⟨_, mem_lbc_iff.mpr ⟨List.mem_dedup.mpr (List.mem_map.mpr ⟨r, hr, hr1⟩), rfl⟩⟩
  · intro c l hl
    obtain ⟨_, rfl⟩ := mem_lbc_iff.mp hl
    have hspec := ranking_spec ((vote_join_rows db show_id).filter (fun r => r.1 == c))
    refine ⟨?_, hspec.2⟩
    intro p
    rw [hspec.1 p]
    constructor
    · rintro ⟨⟨r, hr, hr1⟩, h2⟩
      have hm := List.mem_filter.mp hr
      exact ⟨⟨r, hm.1, by simpa using hm.2, hr1⟩, h2⟩
    · rintro ⟨⟨r, hr, hr1, hr2⟩, h2⟩
      exact ⟨⟨r, List.mem_filter.mpr ⟨hr, by simpa using hr1⟩, hr2⟩, h2⟩
  · intro p
    simp only [leaderboard_overall]
    exact (ranking_spec (vote_join_rows db show_id)).1 p
  · simp only [leaderboard_overall]
    exact (ranking_spec (vote_join_rows db show_id)).2

theorem C6_witness :
    ((7, (5 : Int)) ∈ armyRanking ∧
      ("Army", armyRanking) ∈ leaderboard_by_category demoDB6 1) ∧
    ((5, (5 : Int)) ∈ leaderboard_overall demoDB6 1 ∧
      List.Pairwise rankRel (leaderboard_overall demoDB6 1)) := by
  have h := C6_leaderboard_contract demoDB6 1
  have hmem : ("Army", armyRanking) ∈ leaderboard_by_category demoDB6 1 :=
    mem_lbc_iff.mpr ⟨by decide, rfl⟩
  have hl := h.2.1 "Army" armyRanking hmem
  exact ⟨⟨(hl.1 (7, 5)).mpr (by decide), hmem⟩,
    (h.2.2.1 (5, 5)).mpr (by decide), h.2.2.2⟩
